import Mathlib

/-!
Verification of the substrate CLI key-material and transaction-signing
pipeline (client/cli/src/commands/{utils,sign,sign_transaction,insert}.rs)
against its natural-language specification.

Shallow embedding conventions:
* Byte buffers are `List Nat` with values below 256 where it matters.
* Strings are Lean `String`; a Rust string's bytes are modelled by
  `strBytes` (the code points of its characters — faithful for ASCII,
  which is all the hex / key-type logic ever inspects).
* A Rust panic (out-of-bounds slice, `.expect`) is modelled by the `none`
  case of an outer `Option`; a recoverable `error::Error` is the
  `Except.error` case carrying the error message.
* Each `println!` becomes one element of an output list.  A structured
  report (one JSON object, or one fixed-format text block whose lines are
  label/value pairs) becomes a `Printed.report` carrying the field list
  in source order; the text block's header line `X \x7buri\x7d is account:`
  is modelled as the report's first label/value pair.
* External collaborators (sp_core pair types, SS58 codec, the SCALE
  codec, the RPC transport) are abstract fields of the `Scheme` /
  `RuntimeAdapter` structures, so every theorem is polymorphic in them
  exactly as the source is generic over `Pair: sp_core::Pair` and
  `RA: RuntimeAdapter`.
-/

namespace SubstrateCli

/-- The bytes of a Rust string, as the code points of its characters
(faithful for the ASCII data the commands inspect). -/
def strBytes (s : String) : List Nat :=
  s.data.map Char.toNat

/-- The lookup table `0123456789abcdef` (as byte values) used by the
`hex` crate's encoder. -/
def hexTable : List Nat :=
  [48, 49, 50, 51, 52, 53, 54, 55, 56, 57, 97, 98, 99, 100, 101, 102]

/-- The byte the `hex` crate emits for one nibble: the `n`-th entry of
`0123456789abcdef`. -/
def hexDigitByte (n : Nat) : Nat :=
  hexTable.getD n 48

/-- `hex::encode` on a byte buffer, at the byte level: high nibble then
low nibble of every byte, via the lowercase table. -/
def hexEncodeBytes (bs : List Nat) : List Nat :=
  bs.flatMap (fun b => [hexDigitByte (b / 16), hexDigitByte (b % 16)])

/-- `hex::encode` as the `String` that reaches `println!`. -/
def hexStr (bs : List Nat) : String :=
  ⟨(hexEncodeBytes bs).map Char.ofNat⟩

/-- The `hex` crate's value of one ASCII hex digit byte
(`0-9`, `a-f`, `A-F`), `none` on any other byte. -/
def hexVal (c : Nat) : Option Nat :=
  if 48 ≤ c ∧ c ≤ 57 then some (c - 48)
  else if 97 ≤ c ∧ c ≤ 102 then some (c - 87)
  else if 65 ≤ c ∧ c ≤ 70 then some (c - 55)
  else none

/-- `hex::decode`'s scan over an even-length digit string, two digits per
output byte, left to right, failing on the first non-digit. -/
def hexDecodePairs : List Nat → Except String (List Nat)
  | [] => .ok []
  | [_] => .error "Odd number of digits"
  | a :: b :: rest =>
    match hexVal a, hexVal b with
    | some hi, some lo => (hexDecodePairs rest).map (fun r => (hi * 16 + lo) :: r)
    | _, _ => .error "Invalid character"

/-- `hex::decode`: reject odd length up front, then decode digit pairs. -/
def hexDecode (bs : List Nat) : Except String (List Nat) :=
  if bs.length % 2 = 1 then .error "Odd number of digits" else hexDecodePairs bs

/-- `decode_hex` from `commands/utils.rs`: it slices `message[..2]`
unconditionally — a buffer shorter than two bytes panics (`none`);
otherwise a leading `0x` (bytes 48, 120) is stripped and the rest is
hex-decoded, errors wrapped as `Invalid hex (..)`. -/
def decode_hex (msg : List Nat) : Option (Except String (List Nat)) :=
  if msg.length < 2 then none
  else
    some ((hexDecode (if msg.take 2 = [48, 120] then msg.drop 2 else msg)).mapError
      (fun e => "Invalid hex (" ++ e ++ ")"))

/-- `read_message` from `commands/utils.rs`: a supplied `--message`
argument is always passed through `decode_hex`; otherwise stdin is read
raw and passed through `decode_hex` only when `should_decode` is set. -/
def read_message (msg : Option String) (should_decode : Bool) (stdin : List Nat) :
    Option (Except String (List Nat)) :=
  match msg with
  | some m => decode_hex (strBytes m)
  | none => if should_decode then decode_hex stdin else some (.ok stdin)

/-- The `--output-type` argument (`arg_enums::OutputType`). -/
inductive OutputType where
  | Json
  | Text
deriving DecidableEq, Repr

/-- One unit of standard output: a structured report (one JSON object or
one fixed-format text block, its label/value fields in source order), or
one plain printed line. -/
inductive Printed where
  | report (mode : OutputType) (fields : List (String × String))
  | line (s : String)
deriving DecidableEq, Repr

/-- One signature scheme's capability surface, as the source consumes it
generically (`Pair: sp_core::Pair`, `Pair::Public: Into<MultiSigner>`):
the three fallible parsers of `print_from_uri`'s strategies, signing, and
the byte / SS58 views provided by sp_core.  `account_ss58 acc v` is
`AccountId32::to_ss58check_with_version(v)`; the parameterless
`to_ss58check()` is the same at `default_version`. -/
structure Scheme where
  Pair : Type
  Public : Type
  Seed : Type
  Signature : Type
  from_phrase : String → Option String → Option (Pair × Seed)
  from_string_with_seed : String → Option String → Option (Pair × Option Seed)
  public_from_string_with_version : String → Option (Public × Nat)
  public : Pair → Public
  sign : Pair → List Nat → Signature
  seed_bytes : Seed → List Nat
  public_bytes : Public → List Nat
  sig_bytes : Signature → List Nat
  into_account : Public → List Nat
  default_version : Nat
  account_ss58 : List Nat → Nat → String
  public_ss58 : Public → Nat → String
  network_name : Nat → String

/-- `format_seed`: `0x` followed by the seed bytes in hex. -/
def format_seed (S : Scheme) (seed : S.Seed) : String :=
  "0x" ++ hexStr (S.seed_bytes seed)

/-- `format_public_key`: `0x` followed by the public-key bytes in hex. -/
def format_public_key (S : Scheme) (pk : S.Public) : String :=
  "0x" ++ hexStr (S.public_bytes pk)

/-- `format_account_id`: `0x` followed by the bytes of the account id
derived from the public key (`public_key.into().into_account()`). -/
def format_account_id (S : Scheme) (pk : S.Public) : String :=
  "0x" ++ hexStr (S.into_account pk)

/-- The report printed by `print_from_uri`'s first strategy (mnemonic
phrase): fields in source order, the SS58 address via the parameterless
`to_ss58check()` (default network). -/
def phraseReport (S : Scheme) (uri : String) (pair : S.Pair) (seed : S.Seed)
    (output : OutputType) : Printed :=
  let pk := S.public pair
  let addr := S.account_ss58 (S.into_account pk) S.default_version
  match output with
  | .Json => .report .Json
      [("secretPhrase", uri),
       ("secretSeed", format_seed S seed),
       ("publicKey", format_public_key S pk),
       ("accountId", format_account_id S pk),
       ("ss58Address", addr)]
  | .Text => .report .Text
      [("Secret phrase", uri),
       ("Secret seed", format_seed S seed),
       ("Public key (hex)", format_public_key S pk),
       ("Account ID", format_account_id S pk),
       ("SS58 Address", addr)]

/-- The report printed by `print_from_uri`'s second strategy (secret
string / raw seed): the seed field is `n/a` when the scheme exposes no
seed; SS58 address again via the parameterless `to_ss58check()`. -/
def seedReport (S : Scheme) (uri : String) (pair : S.Pair) (oseed : Option S.Seed)
    (output : OutputType) : Printed :=
  let pk := S.public pair
  let addr := S.account_ss58 (S.into_account pk) S.default_version
  let seedField := match oseed with
    | some seed => format_seed S seed
    | none => "n/a"
  match output with
  | .Json => .report .Json
      [("secretKeyUri", uri),
       ("secretSeed", seedField),
       ("publicKey", format_public_key S pk),
       ("accountId", format_account_id S pk),
       ("ss58Address", addr)]
  | .Text => .report .Text
      [("Secret Key URI", uri),
       ("Secret seed", seedField),
       ("Public key (hex)", format_public_key S pk),
       ("Account ID", format_account_id S pk),
       ("SS58 Address", addr)]

/-- The report printed by `print_from_uri`'s third strategy (public-key
string): its second field is the network id, not a seed, and only here
the address is rendered `to_ss58check_with_version(network_override)`. -/
def publicReport (S : Scheme) (uri : String) (pk : S.Public) (v : Nat)
    (output : OutputType) : Printed :=
  match output with
  | .Json => .report .Json
      [("publicKeyUri", uri),
       ("networkId", S.network_name v),
       ("publicKey", format_public_key S pk),
       ("accountId", format_account_id S pk),
       ("ss58Address", S.public_ss58 pk v)]
  | .Text => .report .Text
      [("Public Key URI", uri),
       ("Network ID/version", S.network_name v),
       ("Public key (hex)", format_public_key S pk),
       ("Account ID", format_account_id S pk),
       ("SS58 Address", S.public_ss58 pk v)]

/-- `print_from_uri` from `commands/utils.rs`: try `Pair::from_phrase`,
then `Pair::from_string_with_seed`, then
`Pair::Public::from_string_with_version`, print the report of the first
strategy that succeeds, and print `Invalid phrase/URI given` when all
three fail.  The result is the list of printed items. -/
def print_from_uri (S : Scheme) (uri : String) (password : Option String)
    (network_override : Nat) (output : OutputType) : List Printed :=
  match S.from_phrase uri password with
  | some (pair, seed) => [phraseReport S uri pair seed output]
  | none =>
    match S.from_string_with_seed uri password with
    | some (pair, oseed) => [seedReport S uri pair oseed output]
    | none =>
      match S.public_from_string_with_version uri with
      | some (pk, _v) => [publicReport S uri pk network_override output]
      | none => [.line "Invalid phrase/URI given"]

/-- `pair_from_suri` from `commands/utils.rs`:
`P::from_string(suri, Some(password)).expect("Invalid phrase")`.
sp_core's `from_string` is `from_string_with_seed` with the seed
discarded; the `.expect` panic is the `none` case. -/
def pair_from_suri (S : Scheme) (suri : String) (password : String) : Option S.Pair :=
  match S.from_string_with_seed suri (some password) with
  | some (pair, _) => some pair
  | none => none

/-- `get_password` from `commands/utils.rs`: the interactive flag reads
from the tty, otherwise the `--password` value is required
(`Password not specified` when absent). -/
def get_password (password_interactive : Bool) (password : Option String)
    (tty : String) : Except String String :=
  if password_interactive then .ok tty
  else
    match password with
    | some p => .ok p
    | none => .error "Password not specified"

/-- `read_uri` from `commands/utils.rs`: when the given string names an
existing file (`fileContents` returns its contents) the trimmed file
contents are the URI, otherwise the string itself; with no string the tty
is prompted.  `trim_end` is modelled by dropping trailing whitespace. -/
def read_uri (uri : Option String) (fileContents : String → Option String)
    (tty : String) : String :=
  match uri with
  | some u =>
    match fileContents u with
    | some contents => ⟨(contents.data.reverse.dropWhile Char.isWhitespace).reverse⟩
    | none => u
  | none => tty

/-- The runtime-adapter collaborator surface `create_extrinsic_for`
consumes (`cli_utils::RuntimeAdapter` plus the SCALE codec):
nonce and call types, `build_extra`, the fallible additional-signed-data
computation behind `SignedPayload::new`, and the canonical encoding of a
signed payload `(call, extra, additional)`. -/
structure RuntimeAdapter where
  Index : Type
  Extra : Type
  Additional : Type
  Call : Type
  build_extra : Index → Extra
  additional_signed : Extra → Option Additional
  payload_encode : Call → Extra → Additional → List Nat

/-- `UncheckedExtrinsic::new_signed(function, signer, signature, extra)`:
the assembled signed extrinsic. -/
structure Extrinsic (RA : RuntimeAdapter) (S : Scheme) where
  function : RA.Call
  signer : List Nat
  signature : S.Signature
  extra : RA.Extra

/-- `create_extrinsic_for` from `commands/utils.rs`: build the extra from
the nonce, form the signed payload (`Transaction validity error` when the
additional signed data cannot be computed), sign the payload's canonical
encoding, derive the account id from `signer.public()`, and assemble the
extrinsic from the payload's call and extra. -/
def create_extrinsic_for (S : Scheme) (RA : RuntimeAdapter)
    (call : RA.Call) (nonce : RA.Index) (signer : S.Pair) :
    Except String (Extrinsic RA S) :=
  let extra := RA.build_extra nonce
  match RA.additional_signed extra with
  | none => .error "Transaction validity error"
  | some additional =>
    let signature := S.sign signer (RA.payload_encode call extra additional)
    let account := S.into_account (S.public signer)
    .ok ⟨call, account, signature, extra⟩

/-- `print_ext` from `commands/sign_transaction.rs`: derive the pair from
the suri (panicking `none` on invalid phrase), build the extrinsic, and
print its SCALE encoding (`ext_encode`, the external `Encode` instance of
`UncheckedExtrinsic`) as `0x`-prefixed hex. -/
def print_ext (S : Scheme) (RA : RuntimeAdapter)
    (ext_encode : Extrinsic RA S → List Nat)
    (uri : String) (pass : String) (call : RA.Call) (nonce : RA.Index) :
    Option (Except String (List Printed)) :=
  match pair_from_suri S uri pass with
  | none => none
  | some signer =>
    some (match create_extrinsic_for S RA call nonce signer with
      | .error e => .error e
      | .ok ext => .ok [.line ("0x" ++ hexStr (ext_encode ext))])

/-- `SignCmd::run` from `commands/sign.rs` after its arguments are
resolved: read the message (`read_message`), derive the pair from the
suri and password, sign the message, and print `hex::encode(signature)`
— with no `0x` prefix.  The outer `Option` is a panic inside
`decode_hex` or `pair_from_suri`. -/
def signCmdRun (S : Scheme) (message : Option String) (hex : Bool)
    (stdin : List Nat) (suri : String) (password : String) :
    Option (Except String (List Printed)) :=
  match read_message message hex stdin with
  | none => none
  | some (.error e) => some (.error e)
  | some (.ok msg) =>
    match pair_from_suri S suri password with
    | none => none
    | some pair =>
      some (.ok [.line (hexStr (S.sig_bytes (S.sign pair msg)))])

/-- One RPC submission observed at the keystore boundary:
(node url, key type, suri, public-key bytes). -/
structure RpcCall where
  url : String
  key_type : String
  suri : String
  public : List Nat
deriving DecidableEq, Repr

/-- `insert_key` from `commands/insert.rs`: one connection attempt and
one `author_insertKey` request; a transport error is caught inside the
future, printed as `Error inserting key: ..`, and swallowed. -/
def insert_key (url : String) (key_type : String) (suri : String)
    (public : List Nat) (transport : Except String Unit) :
    List RpcCall × List String :=
  ([⟨url, key_type, suri, public⟩],
   match transport with
   | .ok _ => []
   | .error e => ["Error inserting key: " ++ e])

/-- The observable outcome of `InsertCmd::run`: the command's result, the
RPC calls made, and the diagnostic lines printed. -/
structure InsertOutcome where
  result : Except String Unit
  rpcCalls : List RpcCall
  printed : List String
deriving Repr

/-- The error message `InsertCmd::run` produces when
`KeyTypeId::try_from` rejects the key-type string. -/
def invalidKeyTypeMsg : String :=
  "Cannot convert argument to keytype: argument should be 4-character string"

/-- `InsertCmd::run` from `commands/insert.rs` after suri and password
are resolved: derive the public key (`pair_from_suri` panics on a bad
suri — the outer `none`), default the node url, check that the key type
converts to a `KeyTypeId` (sp_core accepts exactly 4 bytes) before any
network activity, then run `insert_key` over the transport. -/
def insertCmdRun (S : Scheme) (suri : String) (password : String)
    (key_type : String) (node_url : Option String)
    (transport : Except String Unit) : Option InsertOutcome :=
  match pair_from_suri S suri password with
  | none => none
  | some pair =>
    let public := S.public_bytes (S.public pair)
    let url := node_url.getD "http://localhost:9933"
    if (strBytes key_type).length = 4 then
      let (calls, printed) := insert_key url key_type suri public transport
      some ⟨.ok (), calls, printed⟩
    else
      some ⟨.error invalidKeyTypeMsg, [], []⟩

deriving instance DecidableEq for Except

/-- The characters `0123456789abcdef` — the alphabet of `hex::encode`'s
output. -/
def lowerHexChars : List Char :=
  hexTable.map Char.ofNat

/-- The values of a printed item's fields, in order (a plain line is its
own single value). -/
def reportValues : Printed → List String
  | .report _ fields => fields.map Prod.snd
  | .line s => [s]

/-- A test scheme on which all three of `print_from_uri`'s parsing
strategies fail. -/
def schemeNone : Scheme where
  Pair := Unit
  Public := Unit
  Seed := Unit
  Signature := Unit
  from_phrase := fun _ _ => none
  from_string_with_seed := fun _ _ => none
  public_from_string_with_version := fun _ => none
  public := fun _ => ()
  sign := fun _ _ => ()
  seed_bytes := fun _ => []
  public_bytes := fun _ => []
  sig_bytes := fun _ => []
  into_account := fun _ => []
  default_version := 0
  account_ss58 := fun _ _ => ""
  public_ss58 := fun _ _ => ""
  network_name := fun _ => ""

/-- A test scheme on which the mnemonic-phrase strategy always succeeds,
with distinct SS58 renderings for distinct network versions. -/
def schemePhrase : Scheme where
  Pair := Unit
  Public := Unit
  Seed := Unit
  Signature := Unit
  from_phrase := fun _ _ => some ((), ())
  from_string_with_seed := fun _ _ => none
  public_from_string_with_version := fun _ => none
  public := fun _ => ()
  sign := fun _ _ => ()
  seed_bytes := fun _ => [1]
  public_bytes := fun _ => [2, 3]
  sig_bytes := fun _ => []
  into_account := fun _ => [9]
  default_version := 42
  account_ss58 := fun _ v => "addr" ++ hexStr [v]
  public_ss58 := fun _ v => "pub" ++ hexStr [v]
  network_name := fun v => "net" ++ hexStr [v]

/-- A test scheme on which only the public-key strategy succeeds. -/
def schemePub : Scheme where
  Pair := Unit
  Public := Unit
  Seed := Unit
  Signature := Unit
  from_phrase := fun _ _ => none
  from_string_with_seed := fun _ _ => none
  public_from_string_with_version := fun _ => some ((), 5)
  public := fun _ => ()
  sign := fun _ _ => ()
  seed_bytes := fun _ => [1]
  public_bytes := fun _ => [2, 3]
  sig_bytes := fun _ => []
  into_account := fun _ => [9]
  default_version := 42
  account_ss58 := fun _ v => "addr" ++ hexStr [v]
  public_ss58 := fun _ v => "pub" ++ hexStr [v]
  network_name := fun v => "net" ++ hexStr [v]

/-- A test scheme on which the secret-string strategy succeeds (so
`pair_from_suri` succeeds) and signatures have the fixed bytes
`de ad`. -/
def schemeSign : Scheme where
  Pair := Unit
  Public := Unit
  Seed := Unit
  Signature := Unit
  from_phrase := fun _ _ => none
  from_string_with_seed := fun _ _ => some ((), none)
  public_from_string_with_version := fun _ => none
  public := fun _ => ()
  sign := fun _ _ => ()
  seed_bytes := fun _ => [1]
  public_bytes := fun _ => [7, 8]
  sig_bytes := fun _ => [222, 173]
  into_account := fun _ => [4, 5]
  default_version := 42
  account_ss58 := fun _ v => "addr" ++ hexStr [v]
  public_ss58 := fun _ v => "pub" ++ hexStr [v]
  network_name := fun v => "net" ++ hexStr [v]

/-- A test runtime adapter with naturals for nonce, extra and additional
signed data, and concatenation as the payload encoding. -/
def raNat : RuntimeAdapter where
  Index := Nat
  Extra := Nat
  Additional := Nat
  Call := List Nat
  build_extra := fun n => n + 1
  additional_signed := fun e => some e
  payload_encode := fun c e a => c ++ [e, a]

/-- A test SCALE encoding of the assembled extrinsic over `raNat` and
`schemeSign`. -/
def extEncodeC : Extrinsic raNat schemeSign → List Nat :=
  fun ext =>
    ext.signer ++ schemeSign.sig_bytes ext.signature ++
      (show List Nat from ext.function) ++ [show Nat from ext.extra]

theorem hexDigitByte_mem (n : Nat) : hexDigitByte n ∈ hexTable := by
  unfold hexDigitByte
  rcases Nat.lt_or_ge n hexTable.length with h | h
  · rw [List.getD_eq_getElem _ _ h]
    exact List.getElem_mem h
  · rw [List.getD_eq_default _ _ h]
    decide

theorem hexDigitByte_ne_120 (n : Nat) : hexDigitByte n ≠ 120 := by
  have h := hexDigitByte_mem n
  intro he
  rw [he] at h
  revert h
  decide

theorem hexVal_hexDigitByte : ∀ n < 16, hexVal (hexDigitByte n) = some n := by
  decide

theorem hexEncodeBytes_nil : hexEncodeBytes [] = [] := rfl

theorem hexEncodeBytes_cons (b : Nat) (t : List Nat) :
    hexEncodeBytes (b :: t) =
      hexDigitByte (b / 16) :: hexDigitByte (b % 16) :: hexEncodeBytes t := rfl

theorem hexEncodeBytes_length (bs : List Nat) :
    (hexEncodeBytes bs).length = 2 * bs.length := by
  induction bs with
  | nil => rfl
  | cons b t ih =>
    rw [hexEncodeBytes_cons]
    simp only [List.length_cons, ih]
    omega

theorem hexDecodePairs_hexEncodeBytes (bs : List Nat) (h : ∀ b ∈ bs, b < 256) :
    hexDecodePairs (hexEncodeBytes bs) = .ok bs := by
  induction bs with
  | nil => rfl
  | cons b t ih =>
    have hb : b < 256 := h b (List.mem_cons_self b t)
    have hdiv : b / 16 < 16 := Nat.div_lt_of_lt_mul (by omega)
    have hmod : b % 16 < 16 := Nat.mod_lt _ (by omega)
    have ih' := ih (fun x hx => h x (List.mem_cons_of_mem b hx))
    rw [hexEncodeBytes_cons]
    unfold hexDecodePairs
    rw [hexVal_hexDigitByte _ hdiv, hexVal_hexDigitByte _ hmod, ih']
    have hb' : b / 16 * 16 + b % 16 = b := by
      have := Nat.div_add_mod b 16
      omega
    simp [Except.map, hb']

theorem hexDecode_hexEncodeBytes (bs : List Nat) (h : ∀ b ∈ bs, b < 256) :
    hexDecode (hexEncodeBytes bs) = .ok bs := by
  unfold hexDecode
  rw [hexEncodeBytes_length]
  simp only [Nat.mul_mod_right]
  exact hexDecodePairs_hexEncodeBytes bs h

/-- C9: hex-decoding the hex encoding of a byte buffer returns the
buffer — corrected: the unprefixed round trip requires a nonempty
buffer (on the empty buffer `decode_hex` panics, see C10); the
`0x`-prefixed round trip holds for every buffer. -/
theorem c9_decode_hex_roundtrip (bs : List Nat) (h : ∀ b ∈ bs, b < 256) :
    decode_hex ([48, 120] ++ hexEncodeBytes bs) =
      some (.ok bs) ∧
    (bs ≠ [] →
      decode_hex (hexEncodeBytes bs) = some (.ok bs)) := by
  constructor
  · unfold decode_hex
    have hlen : ([48, 120] ++ hexEncodeBytes bs).length = 2 + 2 * bs.length := by
      simp [hexEncodeBytes_length]
      omega
    rw [if_neg (by omega)]
    have htake : ([48, 120] ++ hexEncodeBytes bs).take 2 = [48, 120] := rfl
    have hdrop : ([48, 120] ++ hexEncodeBytes bs).drop 2 = hexEncodeBytes bs := rfl
    rw [htake, if_pos rfl, hdrop, hexDecode_hexEncodeBytes bs h]
    rfl
  · intro hne
    obtain ⟨b, t, rfl⟩ : ∃ b t, bs = b :: t := by
      cases bs with
      | nil => exact absurd rfl hne
      | cons b t => exact ⟨b, t, rfl⟩
    unfold decode_hex
    rw [hexEncodeBytes_cons]
    rw [if_neg (by simp)]
    have hne120 : hexDigitByte (b % 16) ≠ 120 := hexDigitByte_ne_120 _
    rw [if_neg (by simp [hne120])]
    rw [← hexEncodeBytes_cons, hexDecode_hexEncodeBytes _ h]
    rfl

/-- C9 witness: the round trip evaluated on the buffer `[171]`. -/
theorem c9_decode_hex_roundtrip_witness :
    decode_hex ([48, 120] ++ hexEncodeBytes [171]) =
      some (.ok [171]) ∧
    decode_hex (hexEncodeBytes [171]) = some (.ok [171]) :=
  ⟨(c9_decode_hex_roundtrip [171] (by decide)).1,
   (c9_decode_hex_roundtrip [171] (by decide)).2 (by decide)⟩

/-- C9 counterexample: on the empty buffer without a `0x` prefix the
claimed round trip fails — `decode_hex` of the empty encoding panics
(modelled `none`) instead of returning the buffer. -/
theorem c9_decode_hex_roundtrip_counterexample :
    decode_hex (hexEncodeBytes []) = none ∧
    decode_hex (hexEncodeBytes []) ≠ some (.ok []) := by
  decide

/-- C10: on any input shorter than two bytes the unconditional slice
`message[..2]` in `decode_hex` is out of bounds, so the call panics
(modelled `none`) and in particular never returns the invalid-hex error;
the empty input is reachable through `read_message` with an empty
`--message` argument. -/
theorem c10_decode_hex_short_input_panics (msg : List Nat) (h : msg.length < 2) :
    (decode_hex msg = none ∧ ∀ e, decode_hex msg ≠ some (.error e)) ∧
    (∀ (flag : Bool) (stdin : List Nat), read_message (some "") flag stdin = none) := by
  refine ⟨⟨?_, ?_⟩, ?_⟩
  · unfold decode_hex
    rw [if_pos h]
  · intro e he
    unfold decode_hex at he
    rw [if_pos h] at he
    exact Option.noConfusion he
  · intro flag stdin
    rfl

/-- C10 witness: evaluated on the one-byte input `[48]`. -/
theorem c10_decode_hex_short_input_panics_witness :
    (decode_hex [48] = none ∧ ∀ e, decode_hex [48] ≠ some (.error e)) ∧
    (∀ (flag : Bool) (stdin : List Nat), read_message (some "") flag stdin = none) :=
  c10_decode_hex_short_input_panics [48] (by decide)

/-- C6 counterexample: with `--message "00"` and the hex flag not set the
message that gets signed is the hex-decoded byte `[0]`, not the literal
argument bytes `[48, 48]` — a supplied message is always passed through
`decode_hex`, contradicting the claim. -/
theorem c6_read_message_counterexample :
    read_message (some "00") false [] = some (.ok [0]) ∧
    strBytes "00" = [48, 48] ∧
    read_message (some "00") false [] ≠ some (.ok (strBytes "00")) := by
  refine ⟨?_, rfl, ?_⟩ <;> decide

/-- C6 — corrected: a supplied `--message` argument is always
hex-decoded, regardless of the hex flag; the flag only controls whether
the bytes read from standard input are hex-decoded. -/
theorem c6_read_message_sources (m : String) (flag : Bool) (stdin : List Nat) :
    read_message (some m) flag stdin = decode_hex (strBytes m) ∧
    read_message none true stdin = decode_hex stdin ∧
    read_message none false stdin = some (.ok stdin) :=
  ⟨rfl, rfl, rfl⟩

/-- C6 witness: the three message sources evaluated at a concrete
argument, flag and stdin buffer. -/
theorem c6_read_message_sources_witness :
    read_message (some "0xff") false [1, 2] = decode_hex (strBytes "0xff") ∧
    read_message none true [1, 2] = decode_hex [1, 2] ∧
    read_message none false [1, 2] = some (.ok [1, 2]) :=
  c6_read_message_sources "0xff" false [1, 2]

/-- C1: `print_from_uri` tries the three derivation strategies in order
— mnemonic phrase, secret string / raw seed, public-key string — uses
the first that succeeds, and when all three fail prints exactly the line
`Invalid phrase/URI given` and nothing else. -/
theorem c1_print_from_uri_strategy_order (S : Scheme) (uri : String)
    (pw : Option String) (net : Nat) (out : OutputType) :
    (∀ pair seed, S.from_phrase uri pw = some (pair, seed) →
      print_from_uri S uri pw net out = [phraseReport S uri pair seed out]) ∧
    (∀ pair oseed, S.from_phrase uri pw = none →
      S.from_string_with_seed uri pw = some (pair, oseed) →
      print_from_uri S uri pw net out = [seedReport S uri pair oseed out]) ∧
    (∀ pk v, S.from_phrase uri pw = none →
      S.from_string_with_seed uri pw = none →
      S.public_from_string_with_version uri = some (pk, v) →
      print_from_uri S uri pw net out = [publicReport S uri pk net out]) ∧
    (S.from_phrase uri pw = none →
      S.from_string_with_seed uri pw = none →
      S.public_from_string_with_version uri = none →
      print_from_uri S uri pw net out = [Printed.line "Invalid phrase/URI given"]) := by
  refine ⟨?_, ?_, ?_, ?_⟩ <;> intros <;> simp_all [print_from_uri]

/-- C1 witness: on a scheme where all three strategies fail the command
prints exactly the diagnostic line. -/
theorem c1_print_from_uri_strategy_order_witness :
    print_from_uri schemeNone "bad" none 0 .Text =
      [Printed.line "Invalid phrase/URI given"] :=
  (c1_print_from_uri_strategy_order schemeNone "bad" none 0 .Text).2.2.2 rfl rfl rfl

/-- C4 counterexample: on the public-key-only path the report's second
field is the network id (`networkId` / `Network ID/version`), not a seed
field — its value is neither a hex seed nor the `n/a` marker, and no
seed field appears at all. -/
theorem c4_report_fields_counterexample :
    print_from_uri schemePub "u" none 3 .Json =
      [Printed.report .Json
        [("publicKeyUri", "u"), ("networkId", "net03"), ("publicKey", "0x0203"),
         ("accountId", "0x09"), ("ss58Address", "pub03")]] ∧
    ("net03" ≠ "n/a" ∧ ("net03").data.take 2 ≠ ['0', 'x']) ∧
    "secretSeed" ∉
      (["publicKeyUri", "networkId", "publicKey", "accountId", "ss58Address"] :
        List String) := by
  decide

/-- C4 — corrected: every derivation path prints one report of five
fields whose values are the same, in the same order, in Json and Text
modes; in the phrase and secret-string paths the second value is the
seed (hex, or `n/a`), but in the public-key-only path the second value
is the network identifier and no seed field is present. -/
theorem c4_report_fields (S : Scheme) (uri : String) (pw : Option String) (net : Nat) :
    (∀ pair seed, S.from_phrase uri pw = some (pair, seed) →
      ∀ out, (print_from_uri S uri pw net out).flatMap reportValues =
        [uri, format_seed S seed, format_public_key S (S.public pair),
         format_account_id S (S.public pair),
         S.account_ss58 (S.into_account (S.public pair)) S.default_version]) ∧
    (∀ pair oseed, S.from_phrase uri pw = none →
      S.from_string_with_seed uri pw = some (pair, oseed) →
      ∀ out, (print_from_uri S uri pw net out).flatMap reportValues =
        [uri,
         (match oseed with
          | some seed => format_seed S seed
          | none => "n/a"),
         format_public_key S (S.public pair), format_account_id S (S.public pair),
         S.account_ss58 (S.into_account (S.public pair)) S.default_version]) ∧
    (∀ pk v, S.from_phrase uri pw = none →
      S.from_string_with_seed uri pw = none →
      S.public_from_string_with_version uri = some (pk, v) →
      ∀ out, (print_from_uri S uri pw net out).flatMap reportValues =
        [uri, S.network_name net, format_public_key S pk, format_account_id S pk,
         S.public_ss58 pk net]) := by
  refine ⟨?_, ?_, ?_⟩
  · intro pair seed hp out
    cases out <;> simp [print_from_uri, hp, phraseReport, reportValues]
  · intro pair oseed hp hs out
    cases out <;> cases oseed <;>
      simp [print_from_uri, hp, hs, seedReport, reportValues]
  · intro pk v hp hs hv out
    cases out <;> simp [print_from_uri, hp, hs, hv, publicReport, reportValues]

/-- C4 witness: the five report values on a scheme whose phrase strategy
succeeds. -/
theorem c4_report_fields_witness :
    (print_from_uri schemePhrase "m" none 7 .Json).flatMap reportValues =
      ["m", format_seed schemePhrase (), format_public_key schemePhrase (),
       format_account_id schemePhrase (),
       schemePhrase.account_ss58 (schemePhrase.into_account ())
         schemePhrase.default_version] :=
  (c4_report_fields schemePhrase "m" none 7).1 () () rfl .Json

/-- C5 counterexample: with network override `7` the phrase path still
renders the SS58 address under the scheme default version `42`
(`addr2a`), not under the override (`addr07`) — the override is ignored
outside the public-key-only path. -/
theorem c5_network_override_counterexample :
    print_from_uri schemePhrase "m" none 7 .Json =
      [Printed.report .Json
        [("secretPhrase", "m"), ("secretSeed", "0x01"), ("publicKey", "0x0203"),
         ("accountId", "0x09"), ("ss58Address", "addr2a")]] ∧
    schemePhrase.account_ss58 (schemePhrase.into_account ()) 7 = "addr07" ∧
    "addr2a" ≠ "addr07" := by
  decide

/-- C5 — corrected: the phrase and secret-string paths render the SS58
address under the scheme's default network identifier and ignore the
explicit override entirely (their output does not depend on it); only
the public-key-only path honours the override. -/
theorem c5_network_override (S : Scheme) (uri : String) (pw : Option String)
    (out : OutputType) :
    (∀ pair seed net, S.from_phrase uri pw = some (pair, seed) →
      ((print_from_uri S uri pw net out).flatMap reportValues).getLast? =
        some (S.account_ss58 (S.into_account (S.public pair)) S.default_version)) ∧
    (∀ pair oseed net, S.from_phrase uri pw = none →
      S.from_string_with_seed uri pw = some (pair, oseed) →
      ((print_from_uri S uri pw net out).flatMap reportValues).getLast? =
        some (S.account_ss58 (S.into_account (S.public pair)) S.default_version)) ∧
    (∀ pk v net, S.from_phrase uri pw = none →
      S.from_string_with_seed uri pw = none →
      S.public_from_string_with_version uri = some (pk, v) →
      ((print_from_uri S uri pw net out).flatMap reportValues).getLast? =
        some (S.public_ss58 pk net)) ∧
    (∀ net1 net2,
      S.from_phrase uri pw ≠ none ∨ S.from_string_with_seed uri pw ≠ none →
      print_from_uri S uri pw net1 out = print_from_uri S uri pw net2 out) := by
  refine ⟨?_, ?_, ?_, ?_⟩
  · intro pair seed net hp
    cases out <;> simp [print_from_uri, hp, phraseReport, reportValues]
  · intro pair oseed net hp hs
    cases out <;> cases oseed <;>
      simp [print_from_uri, hp, hs, seedReport, reportValues]
  · intro pk v net hp hs hv
    cases out <;> simp [print_from_uri, hp, hs, hv, publicReport, reportValues]
  · intro net1 net2 h
    cases hp : S.from_phrase uri pw with
    | some pr => simp [print_from_uri, hp]
    | none =>
      cases hs : S.from_string_with_seed uri pw with
      | some pr => simp [print_from_uri, hp, hs]
      | none =>
        rcases h with h | h <;> exact absurd (by assumption) h

/-- C5 witness: the address value of a successful phrase derivation is
the default-version one even under override `7`. -/
theorem c5_network_override_witness :
    ((print_from_uri schemePhrase "m" none 7 .Json).flatMap reportValues).getLast? =
      some (schemePhrase.account_ss58 (schemePhrase.into_account
        (schemePhrase.public ())) schemePhrase.default_version) :=
  (c5_network_override schemePhrase "m" none .Json).1 () () 7 rfl

theorem hexEncodeBytes_subset (bs : List Nat) :
    ∀ v ∈ hexEncodeBytes bs, v ∈ hexTable := by
  intro v hv
  rw [hexEncodeBytes, List.mem_flatMap] at hv
  obtain ⟨b, _, hv⟩ := hv
  simp only [List.mem_cons, List.not_mem_nil, or_false] at hv
  rcases hv with rfl | rfl <;> exact hexDigitByte_mem _

theorem hexStr_data (bs : List Nat) :
    (hexStr bs).data = (hexEncodeBytes bs).map Char.ofNat := rfl

theorem hexStr_chars (bs : List Nat) :
    ∀ c ∈ (hexStr bs).data, c ∈ lowerHexChars := by
  intro c hc
  rw [hexStr_data] at hc
  obtain ⟨v, hv, rfl⟩ := List.mem_map.mp hc
  exact List.mem_map_of_mem _ (hexEncodeBytes_subset bs v hv)

theorem hexStr_take2_ne_0x (bs : List Nat) :
    (hexStr bs).data.take 2 ≠ ['0', 'x'] := by
  cases bs with
  | nil => simp [hexStr, hexEncodeBytes]
  | cons b t =>
    intro he
    rw [hexStr_data, hexEncodeBytes_cons] at he
    simp only [List.map_cons, List.take_cons, List.take_zero] at he
    have h2 : hexDigitByte (b % 16) ∈ hexTable := hexDigitByte_mem _
    have hx : ∀ m ∈ hexTable, Char.ofNat m ≠ 'x' := by decide
    have he2 : Char.ofNat (hexDigitByte (b % 16)) = 'x' := by
      have := List.cons.inj he
      exact (List.cons.inj this.2).1
    exact hx _ h2 he2

/-- C2: `create_extrinsic_for` signs exactly the canonical encoding of
the signed payload built from the call and `build_extra(nonce)`, derives
the caller account from `signer.public()`, assembles the extrinsic from
(account, signature, call, extra), and `print_ext` prints its encoding
as a `0x`-prefixed lowercase hex line. -/
theorem c2_create_extrinsic_for (S : Scheme) (RA : RuntimeAdapter)
    (ext_encode : Extrinsic RA S → List Nat) (uri pass : String)
    (call : RA.Call) (nonce : RA.Index) (pair : S.Pair)
    (additional : RA.Additional)
    (hpair : pair_from_suri S uri pass = some pair)
    (hadd : RA.additional_signed (RA.build_extra nonce) = some additional) :
    create_extrinsic_for S RA call nonce pair =
      .ok ⟨call, S.into_account (S.public pair),
           S.sign pair (RA.payload_encode call (RA.build_extra nonce) additional),
           RA.build_extra nonce⟩ ∧
    print_ext S RA ext_encode uri pass call nonce =
      some (.ok [.line ("0x" ++ hexStr (ext_encode
        ⟨call, S.into_account (S.public pair),
         S.sign pair (RA.payload_encode call (RA.build_extra nonce) additional),
         RA.build_extra nonce⟩))]) ∧
    (∀ bs : List Nat, ("0x" ++ hexStr bs).data.take 2 = ['0', 'x'] ∧
      ∀ c ∈ ("0x" ++ hexStr bs).data.drop 2, c ∈ lowerHexChars) := by
  have h1 : create_extrinsic_for S RA call nonce pair =
      .ok ⟨call, S.into_account (S.public pair),
           S.sign pair (RA.payload_encode call (RA.build_extra nonce) additional),
           RA.build_extra nonce⟩ := by
    unfold create_extrinsic_for
    simp only [hadd]
  refine ⟨h1, ?_, ?_⟩
  · unfold print_ext
    rw [hpair]
    simp only [h1]
  · intro bs
    refine ⟨rfl, ?_⟩
    intro c hc
    have hd : ("0x" ++ hexStr bs).data.drop 2 = (hexStr bs).data := rfl
    rw [hd] at hc
    exact hexStr_chars bs c hc

/-- C2 witness: the extrinsic pipeline evaluated on a concrete scheme,
adapter, call `[1]` and nonce `0`. -/
theorem c2_create_extrinsic_for_witness :
    print_ext schemeSign raNat extEncodeC "s" "p" [1] (((0 : Nat) : raNat.Index)) =
      some (.ok [.line ("0x" ++ hexStr (extEncodeC
        ⟨[1], schemeSign.into_account (schemeSign.public ()),
         schemeSign.sign () (raNat.payload_encode [1]
           (raNat.build_extra (((0 : Nat) : raNat.Index)))
           (((1 : Nat) : raNat.Additional))),
         raNat.build_extra (((0 : Nat) : raNat.Index))⟩))]) :=
  (c2_create_extrinsic_for schemeSign raNat extEncodeC "s" "p" [1]
    (((0 : Nat) : raNat.Index)) () (((1 : Nat) : raNat.Additional)) rfl rfl).2.1

/-- C3 counterexample: a successful run of the sign command prints the
signature `de ad` as `dead`, which is not `0x`-prefixed — the command
prints `hex::encode(signature)` with no prefix. -/
theorem c3_sign_output_counterexample :
    signCmdRun schemeSign (some "00") false [] "s" "p" =
      some (.ok [Printed.line "dead"]) ∧
    ("dead").data.take 2 ≠ ['0', 'x'] := by
  decide

/-- C3 — corrected: for every successful run of the sign command the
line written to standard output is the lowercase hex encoding of the raw
signature bytes, with no `0x` prefix. -/
theorem c3_sign_output (S : Scheme) (message : Option String) (hexFlag : Bool)
    (stdin : List Nat) (suri password : String) (msg : List Nat) (pair : S.Pair)
    (hmsg : read_message message hexFlag stdin = some (.ok msg))
    (hpair : pair_from_suri S suri password = some pair) :
    signCmdRun S message hexFlag stdin suri password =
      some (.ok [.line (hexStr (S.sig_bytes (S.sign pair msg)))]) ∧
    (∀ c ∈ (hexStr (S.sig_bytes (S.sign pair msg))).data, c ∈ lowerHexChars) ∧
    (hexStr (S.sig_bytes (S.sign pair msg))).data.take 2 ≠ ['0', 'x'] := by
  refine ⟨?_, hexStr_chars _, hexStr_take2_ne_0x _⟩
  unfold signCmdRun
  rw [hmsg, hpair]

/-- C3 witness: the sign command evaluated on a concrete scheme and the
message `"00"`. -/
theorem c3_sign_output_witness :
    signCmdRun schemeSign (some "00") false [] "s" "p" =
      some (.ok [.line (hexStr (schemeSign.sig_bytes (schemeSign.sign () [0])))]) ∧
    (∀ c ∈ (hexStr (schemeSign.sig_bytes (schemeSign.sign () [0]))).data,
      c ∈ lowerHexChars) ∧
    (hexStr (schemeSign.sig_bytes (schemeSign.sign () [0]))).data.take 2 ≠
      ['0', 'x'] :=
  c3_sign_output schemeSign (some "00") false [] "s" "p" [0] () rfl rfl

/-- C7: when the key-type string is not exactly four characters the
insert command fails with the invalid-key-type error and makes no RPC
call — the length check precedes any network activity. -/
theorem c7_insert_invalid_key_type (S : Scheme) (suri password key_type : String)
    (node_url : Option String) (transport : Except String Unit) (pair : S.Pair)
    (hpair : pair_from_suri S suri password = some pair)
    (hlen : (strBytes key_type).length ≠ 4) :
    insertCmdRun S suri password key_type node_url transport =
      some ⟨.error invalidKeyTypeMsg, [], []⟩ := by
  unfold insertCmdRun
  rw [hpair]
  simp only [if_neg hlen]

/-- C7 witness: the two-character key type `ab` is rejected with no RPC
call, on a concrete scheme and an unreachable transport. -/
theorem c7_insert_invalid_key_type_witness :
    insertCmdRun schemeSign "s" "p" "ab" none (.error "refused") =
      some ⟨.error invalidKeyTypeMsg, [], []⟩ :=
  c7_insert_invalid_key_type schemeSign "s" "p" "ab" none (.error "refused") ()
    rfl (by decide)

/-- C8: a transport failure during key insertion is caught inside the
RPC boundary, printed as an `Error inserting key:` diagnostic, and the
command's run still returns success; on a working transport nothing is
printed — either way exactly one RPC request is issued and the result
is `Ok`. -/
theorem c8_insert_transport_error_swallowed (S : Scheme)
    (suri password key_type : String) (node_url : Option String) (pair : S.Pair)
    (hpair : pair_from_suri S suri password = some pair)
    (hlen : (strBytes key_type).length = 4) :
    (∀ e, insertCmdRun S suri password key_type node_url (.error e) =
      some ⟨.ok (),
        [⟨node_url.getD "http://localhost:9933", key_type, suri,
          S.public_bytes (S.public pair)⟩],
        ["Error inserting key: " ++ e]⟩) ∧
    insertCmdRun S suri password key_type node_url (.ok ()) =
      some ⟨.ok (),
        [⟨node_url.getD "http://localhost:9933", key_type, suri,
          S.public_bytes (S.public pair)⟩], []⟩ := by
  constructor
  · intro e
    unfold insertCmdRun
    rw [hpair]
    simp only [if_pos hlen]
    rfl
  · unfold insertCmdRun
    rw [hpair]
    simp only [if_pos hlen]
    rfl

/-- C8 witness: an unreachable node URL on a concrete scheme — the run
returns `Ok` and prints the transport diagnostic. -/
theorem c8_insert_transport_error_swallowed_witness :
    insertCmdRun schemeSign "s" "p" "abcd" none (.error "connection refused") =
      some ⟨.ok (),
        [⟨"http://localhost:9933", "abcd", "s",
          schemeSign.public_bytes (schemeSign.public ())⟩],
        ["Error inserting key: " ++ "connection refused"]⟩ :=
  (c8_insert_transport_error_swallowed schemeSign "s" "p" "abcd" none ()
    rfl (by decide)).1 "connection refused"

end SubstrateCli
